import Mathlib

/-!
Verification development for the speak-to-speak voice assistant
(`src/app.py`): a shallow embedding of the language registry, the
microphone recognition wrapper, the text-to-speech output routine with
its cleanup block, the Gemini response adapter, and the dispatch logic
of the main session loop. External services (recognizer, generative
model, synthesizer, playback) are modelled as environments that choose
which outcome each call produces; the embedded functions mirror the
Python control flow over those outcomes.
-/

namespace SpeakApp

/-! ### Python string primitives (ASCII fragment used by the program) -/

/-- Python whitespace characters as `str.strip` treats them (ASCII part). -/
def pyIsSpace (c : Char) : Bool :=
  c = ' ' || c = '\t' || c = '\n' || c = '\r' || c = Char.ofNat 11 || c = Char.ofNat 12

/-- Python `str.strip()`: drop leading and trailing whitespace. -/
def pyStrip (s : String) : String :=
  String.mk (((s.data.dropWhile pyIsSpace).reverse.dropWhile pyIsSpace).reverse)

/-- Python `str.lower()` on ASCII data. -/
def pyLower (s : String) : String :=
  String.mk (s.data.map Char.toLower)

/-- Whether `pre` is a leading segment of `l` (used for substring search). -/
def isPrefixB : List Char → List Char → Bool
  | [], _ => true
  | _ :: _, [] => false
  | a :: as, b :: bs => a == b && isPrefixB as bs

/-- Python `needle in haystack` on character lists. -/
def strContainsB (needle : List Char) : List Char → Bool
  | [] => isPrefixB needle []
  | b :: bs => isPrefixB needle (b :: bs) || strContainsB needle bs

/-! ### Language registry (`SUPPORTED_LANGUAGES`, `select_language`) -/

/-- One entry of `SUPPORTED_LANGUAGES`: display name, recognition locale,
gTTS synthesis code. -/
structure LangInfo where
  name : String
  code : String
  gtts_lang : String
deriving DecidableEq, Repr

/-- The `SUPPORTED_LANGUAGES` dict of `src/app.py`, as an association list
in its insertion order. -/
def SUPPORTED_LANGUAGES : List (String × LangInfo) :=
  [("1", { name := "English (US)", code := "en-US", gtts_lang := "en" }),
   ("2", { name := "Hindi (India)", code := "hi-IN", gtts_lang := "hi" }),
   ("3", { name := "Kannada (India)", code := "kn-IN", gtts_lang := "kn" })]

/-- Dict lookup `SUPPORTED_LANGUAGES[choice]` (`none` = key absent). -/
def lookupLang (choice : String) : Option LangInfo :=
  (SUPPORTED_LANGUAGES.find? (fun p => p.1 == choice)).map Prod.snd

/-- The registry's profiles (the dict's values). -/
def langValues : List LangInfo := SUPPORTED_LANGUAGES.map Prod.snd

/-- `select_language()`: reads choices until one is a key of the registry and
returns that entry. The console input is modelled as the list of lines the
user will type; `none` models the loop re-prompting past the end of that
list (it never returns on an all-invalid input stream). -/
def select_language : List String → Option LangInfo
  | [] => none
  | choice :: rest =>
    match lookupLang choice with
    | some info => some info
    | none => select_language rest

/-! ### Speech recognition (`recognize_speech_from_mic`) -/

/-- The dict `recognize_speech_from_mic` returns: keys `success`, `error`,
`transcription`. -/
structure RecResult where
  success : Bool
  error : Option String
  transcription : Option String
deriving DecidableEq, Repr

/-- What `recognizer.adjust_for_ambient_noise` does. -/
inductive AdjustOutcome
  | ok
  | raised (msg : String)
deriving DecidableEq, Repr

/-- What `recognizer.listen` does: audio captured, `sr.WaitTimeoutError`, or
another exception. -/
inductive ListenOutcome
  | captured
  | waitTimeout
  | raised (msg : String)
deriving DecidableEq, Repr

/-- What `recognizer.recognize_google` does: transcript, `sr.RequestError`,
`sr.UnknownValueError`, or another exception. -/
inductive RecogOutcome
  | ok (text : String)
  | requestError (msg : String)
  | unknownValue
  | raised (msg : String)
deriving DecidableEq, Repr

/-- `recognize_speech_from_mic(recognizer, microphone, ...)` under the
assumption that `with microphone as source:` opened the device: the two
Bool arguments are the `isinstance` guards that run before the `with`
block, and the three outcome arguments are what the adjust, listen and
recognize calls would do on this attempt. Every path modelled here returns
the dict. The `with` statement itself is outside any try/except — its
enter can raise and escape the function — and is modelled by
`recognize_speech_from_mic_full` below, which wraps this core. -/
def recognize_speech_from_mic (recognizerOk micOk : Bool) (adjust : AdjustOutcome)
    (listen : ListenOutcome) (recog : RecogOutcome) : RecResult :=
  if !recognizerOk then
    { success := false, error := some "Recognizer not properly initialized.",
      transcription := none }
  else if !micOk then
    { success := false, error := some "Microphone not properly initialized.",
      transcription := none }
  else
    match adjust with
    | .raised e =>
      { success := false, error := some ("Ambient noise adjustment failed: " ++ e),
        transcription := none }
    | .ok =>
      match listen with
      | .waitTimeout =>
        { success := true, error := some "No speech detected", transcription := none }
      | .raised e =>
        { success := false, error := some ("Listening failed: " ++ e), transcription := none }
      | .captured =>
        match recog with
        | .ok t => { success := true, error := none, transcription := some t }
        | .requestError _ =>
          { success := false,
            error := some "API unavailable. Check your internet connection or API quota.",
            transcription := none }
        | .unknownValue =>
          { success := true, error := some "Unable to recognize speech.", transcription := none }
        | .raised e =>
          { success := false, error := some ("Speech recognition failed: " ++ e),
            transcription := none }

/-- What entering `with microphone as source:` does: the device opens, or
the enter raises (e.g. an `OSError` from PyAudio when no device is
available). -/
inductive MicOpenOutcome
  | ok
  | raised (msg : String)
deriving DecidableEq, Repr

/-- `recognize_speech_from_mic` including the unguarded device open. The
`isinstance` guards (src/app.py:61-66) return their dicts before the `with`
block; then `with microphone as source:` (src/app.py:68) opens the device
outside any try/except, so an open failure escapes the function as an
exception (`Except.error`); once the device has opened, the body behaves as
`recognize_speech_from_mic` past its guards and always returns the dict. -/
def recognize_speech_from_mic_full (recognizerOk micOk : Bool)
    (micOpen : MicOpenOutcome) (adjust : AdjustOutcome) (listen : ListenOutcome)
    (recog : RecogOutcome) : Except String RecResult :=
  if !recognizerOk then
    .ok { success := false, error := some "Recognizer not properly initialized.",
          transcription := none }
  else if !micOk then
    .ok { success := false, error := some "Microphone not properly initialized.",
          transcription := none }
  else
    match micOpen with
    | .raised m => .error m
    | .ok => .ok (recognize_speech_from_mic true true adjust listen recog)

/-! ### Text to speech (`speak_text`) -/

/-- A Python value passed as `text_to_speak`: a string, or some non-string
object (the `isinstance(text_to_speak, str)` guard rejects the latter). -/
inductive PyVal
  | pystr (s : String)
  | nonStr
deriving DecidableEq, Repr

/-- An exception raised inside `speak_text`'s try block. Python's handlers
are `except ValueError` and `except Exception`; every exception the block
can raise is an `Exception` subclass, which these two constructors cover. -/
inductive PyExn
  | valueError (msg : String)
  | generic (msg : String)
deriving DecidableEq, Repr

/-- Whether one of `speak_text`'s two handlers catches `e` (`except
ValueError` first, then `except Exception`). -/
def pyCatches : PyExn → Bool
  | .valueError _ => true
  | .generic _ => true

/-- What `gTTS(...)` + `tts.save(...)` do on this call. -/
inductive SynthOutcome
  | ok
  | valueError (msg : String)
  | raised (msg : String)
deriving DecidableEq, Repr

/-- What one `os.remove(temp_audio_file)` attempt does. -/
inductive RemoveOutcome
  | ok
  | permissionError
  | raised (msg : String)
deriving DecidableEq, Repr

/-- The environment of one `speak_text` call: what synthesis, mixer init,
load/play, and the i-th file-removal attempt would do. -/
structure SpeakEnv where
  synth : SynthOutcome
  mixerInitRaises : Bool
  playRaises : Bool
  busyPolls : Nat
  removeAt : Nat → RemoveOutcome

/-- State accumulated by the try block, needed by the `finally` block:
whether `tts.save` created the temp file, whether `pygame.mixer.init`
succeeded, whether playback ran to completion. -/
structure TryState where
  fileCreated : Bool
  mixerInit : Bool
  played : Bool
deriving DecidableEq, Repr

/-- The body of `speak_text`'s try block: synthesize to the temp file, init
the mixer, load and play, poll `get_busy`, sleep. An error carries the state
at the point of the raise (gTTS raises before the file is written). -/
def speak_try_body (env : SpeakEnv) : Except (PyExn × TryState) TryState :=
  match env.synth with
  | .valueError m => .error (.valueError m, ⟨false, false, false⟩)
  | .raised m => .error (.generic m, ⟨false, false, false⟩)
  | .ok =>
    if env.mixerInitRaises then .error (.generic "mixer init failed", ⟨true, false, false⟩)
    else if env.playRaises then .error (.generic "playback failed", ⟨true, true, false⟩)
    else .ok ⟨true, true, true⟩

/-- How the removal loop in the `finally` block ends. -/
inductive CleanupStatus
  | removed
  | exhausted
  | permissionWarn
  | errLogged (msg : String)
deriving DecidableEq, Repr

/-- The needle of the `"is not a valid language code" in str(e)` test. -/
def langErrNeedle : List Char := "is not a valid language code".data

/-- The `for _ in range(3)` removal loop of `speak_text`'s finally block.
`stillHeld i` is the value of `pygame.mixer.get_init() and
pygame.mixer.music.get_busy()` at iteration `i` (the Python condition is its
negation); when it is false, `os.remove` runs and the loop breaks on success
(`.removed`), or the raised exception leaves the loop at once
(`.permissionWarn` / `.errLogged` via the surrounding handlers); when it is
true the loop sleeps 0.1s and retries. The `for`-`else` branch (three full
iterations without a break) logs a warning (`.exhausted`). -/
def removeLoop (stillHeld : Nat → Bool) (removeAt : Nat → RemoveOutcome) :
    Nat → Nat → CleanupStatus
  | 0, _ => .exhausted
  | fuel + 1, i =>
    if stillHeld i then removeLoop stillHeld removeAt fuel (i + 1)
    else
      match removeAt i with
      | .ok => .removed
      | .permissionError => .permissionWarn
      | .raised m => .errLogged m

/-- The observable outcome of one `speak_text` call. `cleanup = none` means
the removal code was skipped because the temp file does not exist;
`propagated` is the exception escaping the function, if any. -/
structure SpeakResult where
  noop : Bool
  fileCreated : Bool
  played : Bool
  cleanup : Option CleanupStatus
  langUnsupportedReported : Bool
  failureReported : Bool
  propagated : Option PyExn
deriving DecidableEq, Repr

/-- The early `return` of `speak_text` on empty or non-string text: nothing
synthesized, played, created or removed. -/
def noopResult : SpeakResult :=
  { noop := true, fileCreated := false, played := false, cleanup := none,
    langUnsupportedReported := false, failureReported := false, propagated := none }

/-- What escapes `speak_text` given the exception (if any) its try block
raised: `none` when a handler catches it. -/
def propagateOf : Option PyExn → Option PyExn
  | some e => if pyCatches e then none else some e
  | none => none

/-- The `except` handlers and the `finally` block of `speak_text`, entered
with the try block's state and the exception it raised (if any). The
`except ValueError` handler reports the unsupported-language message when
the substring test matches, else a generic message; `except Exception`
reports generically. The `finally` block first stops and quits the mixer
when `pygame.mixer.get_init()` is truthy, and then, if the temp file
exists, runs the removal loop — at that point the mixer is no longer
initialized, so `stillHeld` is constantly false. -/
def speak_finish (st : TryState) (caught : Option PyExn) (env : SpeakEnv) : SpeakResult :=
  { noop := false
    fileCreated := st.fileCreated
    played := st.played
    cleanup :=
      if st.fileCreated then some (removeLoop (fun _ => false) env.removeAt 3 0)
      else none
    langUnsupportedReported :=
      match caught with
      | some (.valueError m) => strContainsB langErrNeedle m.data
      | _ => false
    failureReported :=
      match caught with
      | some (.valueError m) => !(strContainsB langErrNeedle m.data)
      | some (.generic _) => true
      | none => false
    propagated := propagateOf caught }

/-- `speak_text(text_to_speak, gtts_lang_code)`. Mirrors the Python control
flow: the empty/non-string early return (`if not text_to_speak or not
isinstance(text_to_speak, str)`), then the try block followed by the
handlers and the `finally` block (`speak_finish`). -/
def speak_text (text_to_speak : PyVal) (gtts_lang_code : String) (env : SpeakEnv) :
    SpeakResult :=
  match text_to_speak with
  | .nonStr => noopResult
  | .pystr s =>
    if s = "" then noopResult
    else
      match speak_try_body env with
      | .ok st => speak_finish st none env
      | .error (e, st) => speak_finish st (some e) env

/-- Whether the temp file still exists on disk after `speak_text` returns. -/
def fileRemains (r : SpeakResult) : Bool :=
  r.fileCreated &&
    (match r.cleanup with
     | some .removed => false
     | _ => true)

/-- Whether the cleanup code logged a could-not-delete warning. -/
def cleanupWarned (r : SpeakResult) : Bool :=
  match r.cleanup with
  | some .permissionWarn => true
  | some .exhausted => true
  | _ => false

/-! ### Gemini response adapter (`get_ai_response`) -/

/-- `response.prompt_feedback` when truthy: its `block_reason` is `some name`
when the block-reason enum member is truthy, `none` when absent/unspecified. -/
structure PromptFeedback where
  block_reason : Option String
deriving DecidableEq, Repr

/-- One element of `response.parts`: whether it has a `text` attribute, and
that text. -/
structure RespPart where
  hasText : Bool
  text : String
deriving DecidableEq, Repr

/-- The fields of a Gemini response that `get_ai_response` reads:
`prompt_feedback` (`none` when falsy), the primary `text` (`none` when the
attribute is absent or `None`), and the structured `parts`. -/
structure GenResponse where
  prompt_feedback : Option PromptFeedback
  text : Option String
  parts : List RespPart
deriving DecidableEq, Repr

/-- What `model.generate_content(prompt)` does on this call. -/
inductive GenOutcome
  | ok (r : GenResponse)
  | raised (msg : String)
deriving DecidableEq, Repr

def msg_model_unavailable : String :=
  "Gemini AI model is not available. Please check your API key and configuration."

def msg_empty_prompt : String := "I didn't receive any input. How can I help you?"

def msg_blocked (reason : String) : String :=
  "Sorry, your request was blocked by the AI for safety reasons (" ++ reason ++
    "). Please try rephrasing."

def msg_unusual : String := "Sorry, I received an unusual response from Gemini AI."

def msg_api_error : String :=
  "Sorry, I encountered an error while trying to get a response from Gemini AI."

/-- The texts of the parts that have a `text` attribute, in order. -/
def partsTexts (r : GenResponse) : List String :=
  (r.parts.filter (fun p => p.hasText)).map (fun p => p.text)

/-- The parts fallback of `get_ai_response`: `elif response.parts:` then join
the collected texts with single spaces and strip, else the unusual-response
message. -/
def ai_parts_of (r : GenResponse) : String × Nat :=
  if r.parts ≠ [] then
    if partsTexts r ≠ [] then (pyStrip (String.intercalate " " (partsTexts r)), 1)
    else (msg_unusual, 1)
  else (msg_unusual, 1)

/-- The text-reading tail of `get_ai_response`: prefer the truthy primary
`text` field (stripped), else fall back to the parts. -/
def ai_text_of (r : GenResponse) : String × Nat :=
  match r.text with
  | some t => if t ≠ "" then (pyStrip t, 1) else ai_parts_of r
  | none => ai_parts_of r

/-- `get_ai_response(prompt)`. The first component is the returned string,
the second the number of `model.generate_content` calls made. `model` is
the module-level handle (`none` when initialization never succeeded);
`some outcome` also fixes what the one possible service call would do.
`if not prompt:` on a string is exactly the test `prompt = ""`. -/
def get_ai_response (model : Option GenOutcome) (prompt : String) : String × Nat :=
  match model with
  | none => (msg_model_unavailable, 0)
  | some outcome =>
    if prompt = "" then (msg_empty_prompt, 0)
    else
      match outcome with
      | .raised _ => (msg_api_error, 1)
      | .ok r =>
        match r.prompt_feedback with
        | some fb =>
          match fb.block_reason with
          | some reason => (msg_blocked reason, 1)
          | none => ai_text_of r
        | none => ai_text_of r

/-- Whether the safety-filter test of `get_ai_response` does not fire:
`prompt_feedback` is falsy, or its `block_reason` is falsy. -/
def notBlockedB (r : GenResponse) : Bool :=
  match r.prompt_feedback with
  | some fb =>
    match fb.block_reason with
    | some _ => false
    | none => true
  | none => true

/-- Whether the primary `text` field is falsy (absent, `None`, or empty). -/
def textFalsyB (r : GenResponse) : Bool :=
  match r.text with
  | some t => if t = "" then true else false
  | none => true

/-! ### Session loop dispatch (`__main__`) -/

def msg_brain_unavailable : String := "I'm sorry, my AI brain is currently unavailable."

def msg_retry : String := "I didn't quite catch that. Could you please repeat?"

def msg_no_hear : String := "I didn't hear anything. Please try speaking."

/-- Where the `while True` loop goes after reading the idle prompt line. -/
inductive IdleAction
  | quit
  | changeLang
  | listen
deriving DecidableEq, Repr

/-- The dispatch on `input(...).strip().lower()`: `'q'` breaks the loop,
`'c'` re-runs language selection, anything else proceeds to listening. -/
def idle_action (line : String) : IdleAction :=
  let cmd := pyLower (pyStrip line)
  if cmd = "q" then .quit
  else if cmd = "c" then .changeLang
  else .listen

/-- Python truthiness of an optional string (`None` and `""` are falsy). -/
def optTruthy : Option String → Bool
  | some t => if t = "" then false else true
  | none => false

/-- What one turn of the loop emits after a listening attempt: the texts
passed to `speak_text` in order, the `Speech Recognition Info:` line printed
(if any), and how many `generate_content` calls were made. -/
structure TurnOutput where
  spoken : List String
  printedInfo : Option String
  aiCalls : Nat
deriving DecidableEq, Repr

/-- The loop's routing of `speech_result` (the dict is always truthy, so the
outer `if speech_result:` always takes the first branch). On
`success and recognized_text`, the AI path runs — `get_ai_response` and
speak its reply when `model` is set, else speak the fixed brain-unavailable
message. Otherwise, `elif speech_result["error"]:` prints the error and
speaks only for the two recognized error strings. -/
def handle_speech_result (model : Option GenOutcome) (res : RecResult) : TurnOutput :=
  if res.success && optTruthy res.transcription then
    match model with
    | some _ =>
      let reply := get_ai_response model (res.transcription.getD "")
      { spoken := [reply.1], printedInfo := none, aiCalls := reply.2 }
    | none =>
      { spoken := [msg_brain_unavailable], printedInfo := none, aiCalls := 0 }
  else
    match res.error with
    | some e =>
      if e = "" then { spoken := [], printedInfo := none, aiCalls := 0 }
      else if e = "Unable to recognize speech." then
        { spoken := [msg_retry], printedInfo := some e, aiCalls := 0 }
      else if e = "No speech detected" then
        { spoken := [msg_no_hear], printedInfo := some e, aiCalls := 0 }
      else
        { spoken := [], printedInfo := some e, aiCalls := 0 }
    | none => { spoken := [], printedInfo := none, aiCalls := 0 }

/-- The loop's mutable state: the currently selected profile and whether the
`while True` loop is still running. -/
structure LoopState where
  lang : LangInfo
  running : Bool
deriving DecidableEq, Repr

/-- The environment of one loop iteration: the idle input line, the choice
lines a `select_language` call would read, the recognition result of a
listening attempt, and the module-level model handle. -/
structure StepEnv where
  line : String
  selInputs : List String
  speech : RecResult
  model : Option GenOutcome

def emptyTurn : TurnOutput := { spoken := [], printedInfo := none, aiCalls := 0 }

/-- One iteration of the `while True` loop. `none` models the iteration
blocking forever inside `select_language` (no valid choice in the input
stream); otherwise the new state and the turn's output. Only the
`changeLang` branch assigns the current-language variables. -/
def main_step (st : LoopState) (env : StepEnv) : Option (LoopState × TurnOutput) :=
  match idle_action env.line with
  | .quit => some ({ lang := st.lang, running := false }, emptyTurn)
  | .changeLang =>
    (select_language env.selInputs).map
      (fun l => ({ lang := l, running := st.running }, emptyTurn))
  | .listen =>
    some ({ lang := st.lang, running := st.running },
      handle_speech_result env.model env.speech)

/-! ### Concrete inputs used by the counterexamples and witnesses -/

/-- A successful service response with a plain text reply. -/
def c1resp : GenResponse :=
  { prompt_feedback := none, text := some "hello there", parts := [] }

/-- A successful service response whose primary text carries leading and
trailing whitespace. -/
def c5resp : GenResponse :=
  { prompt_feedback := none, text := some "  hi  ", parts := [] }

/-- A `speak_text` environment in which synthesis and playback succeed and
the playback subsystem keeps the temp file locked at the moment of the
single removal attempt (attempt 0 raises `PermissionError`) but would
release it one short interval later (attempts 1 and 2 would succeed). -/
def c2env : SpeakEnv :=
  { synth := .ok, mixerInitRaises := false, playRaises := false, busyPolls := 0,
    removeAt := fun i => if i = 0 then .permissionError else .ok }

/-- The retry-prompt text as the claim quotes it. -/
def claimedRetryText : String := "I didn't quite catch that, could you repeat?"

/-- The no-speech prompt text as the claim quotes it. -/
def claimedNoHearText : String := "I didn't hear anything, please try speaking"

/-! ### Helper lemmas -/

theorem string_data_append (s t : String) : (s ++ t).data = s.data ++ t.data := by
  cases s
  cases t
  rfl

theorem cons_append_ne {c d : Char} (hcd : c ≠ d) (l t l2 : List Char) :
    (c :: l) ++ t ≠ d :: l2 := by
  intro h
  rw [List.cons_append] at h
  exact hcd (List.cons.inj h).1

theorem cons_append_ne_nil (c : Char) (l t : List Char) : (c :: l) ++ t ≠ [] := by
  intro h
  rw [List.cons_append] at h
  exact List.cons_ne_nil _ _ h

theorem string_ne_of_data_ne {s t : String} (h : s.data ≠ t.data) : s ≠ t :=
  fun he => h (congrArg String.data he)

theorem sr_fail_ne_empty (m : String) : "Speech recognition failed: " ++ m ≠ "" := by
  apply string_ne_of_data_ne
  rw [string_data_append]
  have h1 : "Speech recognition failed: ".data =
      'S' :: "peech recognition failed: ".data := rfl
  rw [h1]
  exact cons_append_ne_nil _ _ _

theorem sr_fail_ne_unable (m : String) :
    "Speech recognition failed: " ++ m ≠ "Unable to recognize speech." := by
  apply string_ne_of_data_ne
  rw [string_data_append]
  have h1 : "Speech recognition failed: ".data =
      'S' :: "peech recognition failed: ".data := rfl
  have h2 : "Unable to recognize speech.".data =
      'U' :: "nable to recognize speech.".data := rfl
  rw [h1, h2]
  exact cons_append_ne (by decide) _ _ _

theorem sr_fail_ne_nospeech (m : String) :
    "Speech recognition failed: " ++ m ≠ "No speech detected" := by
  apply string_ne_of_data_ne
  rw [string_data_append]
  have h1 : "Speech recognition failed: ".data =
      'S' :: "peech recognition failed: ".data := rfl
  have h2 : "No speech detected".data = 'N' :: "o speech detected".data := rfl
  rw [h1, h2]
  exact cons_append_ne (by decide) _ _ _

theorem lookupLang_mem {k : String} {l : LangInfo} (h : lookupLang k = some l) :
    l ∈ langValues := by
  unfold lookupLang at h
  cases hf : SUPPORTED_LANGUAGES.find? (fun p => p.1 == k) with
  | none => rw [hf] at h; exact absurd h (by simp)
  | some pr =>
    rw [hf] at h
    have h2 : pr.2 = l := Option.some.inj h
    rw [← h2]
    exact List.mem_map_of_mem Prod.snd (List.mem_of_find?_eq_some hf)

theorem select_language_mem :
    ∀ {inputs : List String} {l : LangInfo}, select_language inputs = some l →
      l ∈ langValues := by
  intro inputs
  induction inputs with
  | nil => intro l h; exact absurd h (by simp [select_language])
  | cons c rest ih =>
    intro l h
    unfold select_language at h
    cases hc : lookupLang c with
    | some info =>
      rw [hc] at h
      cases h
      exact lookupLang_mem hc
    | none =>
      rw [hc] at h
      exact ih h

theorem select_language_none :
    ∀ {inputs : List String}, (∀ i ∈ inputs, lookupLang i = none) →
      select_language inputs = none := by
  intro inputs
  induction inputs with
  | nil => intro _; rfl
  | cons c rest ih =>
    intro h
    unfold select_language
    rw [h c (List.mem_cons_self c rest)]
    exact ih (fun i hi => h i (List.mem_cons_of_mem c hi))

theorem propagateOf_none (c : Option PyExn) : propagateOf c = none := by
  cases c with
  | none => rfl
  | some e => cases e <;> rfl

theorem ai_parts_of_snd (r : GenResponse) : (ai_parts_of r).2 = 1 := by
  unfold ai_parts_of
  split
  · split <;> rfl
  · rfl

theorem ai_text_of_snd (r : GenResponse) : (ai_text_of r).2 = 1 := by
  obtain ⟨pf, tx, ps⟩ := r
  cases tx with
  | none => exact ai_parts_of_snd _
  | some t =>
    show (if t ≠ "" then (pyStrip t, 1) else ai_parts_of _).2 = 1
    split
    · rfl
    · exact ai_parts_of_snd _

theorem get_ai_ok_not_blocked {r : GenResponse} {p : String} (hp : p ≠ "")
    (hb : notBlockedB r = true) :
    get_ai_response (some (.ok r)) p = ai_text_of r := by
  obtain ⟨pf, tx, ps⟩ := r
  show (if p = "" then _ else _) = _
  rw [if_neg hp]
  cases pf with
  | none => rfl
  | some fb =>
    cases hbr : fb.block_reason with
    | none =>
      obtain ⟨br⟩ := fb
      cases hbr
      rfl
    | some reason =>
      obtain ⟨br⟩ := fb
      cases hbr
      exact absurd hb (by simp [notBlockedB])

theorem speak_finish_propagated (st : TryState) (c : Option PyExn) (env : SpeakEnv) :
    (speak_finish st c env).propagated = none :=
  propagateOf_none c

theorem speak_text_propagated (v : PyVal) (lang : String) (env : SpeakEnv) :
    (speak_text v lang env).propagated = none := by
  cases v with
  | nonStr => rfl
  | pystr s =>
    show (if s = "" then noopResult else _).propagated = none
    split
    · rfl
    · cases h : speak_try_body env with
      | ok st => exact speak_finish_propagated st none env
      | error p => exact speak_finish_propagated p.2 (some p.1) env

theorem removeLoop_not_held (f : Nat → RemoveOutcome) (held : Nat → Bool)
    (hheld : held 0 = false) :
    removeLoop held f 3 0 =
      (match f 0 with
       | .ok => CleanupStatus.removed
       | .permissionError => CleanupStatus.permissionWarn
       | .raised m => CleanupStatus.errLogged m) := by
  unfold removeLoop
  rw [hheld]
  rfl

theorem speak_finish_fileRemains_ok (st : TryState) (c : Option PyExn) (env : SpeakEnv)
    (h : env.removeAt 0 = RemoveOutcome.ok) :
    fileRemains (speak_finish st c env) = false := by
  obtain ⟨fc, mi, pl⟩ := st
  cases fc with
  | false => rfl
  | true =>
    have hr : removeLoop (fun _ => false) env.removeAt 3 0 = CleanupStatus.removed := by
      rw [removeLoop_not_held env.removeAt (fun _ => false) rfl, h]
    simp [speak_finish, fileRemains, hr]

theorem speak_finish_fileRemains_perm (st : TryState) (c : Option PyExn) (env : SpeakEnv)
    (hfc : st.fileCreated = true) (h : env.removeAt 0 = RemoveOutcome.permissionError) :
    fileRemains (speak_finish st c env) = true ∧
      cleanupWarned (speak_finish st c env) = true := by
  obtain ⟨fc, mi, pl⟩ := st
  cases hfc
  have hr : removeLoop (fun _ => false) env.removeAt 3 0 = CleanupStatus.permissionWarn := by
    rw [removeLoop_not_held env.removeAt (fun _ => false) rfl, h]
  constructor
  · simp [speak_finish, fileRemains, hr]
  · simp [speak_finish, cleanupWarned, hr]

theorem speak_try_body_created (env : SpeakEnv) (h : env.synth = SynthOutcome.ok) :
    (match speak_try_body env with
     | .ok st => st.fileCreated
     | .error (_, st) => st.fileCreated) = true := by
  unfold speak_try_body
  rw [h]
  cases hm : env.mixerInitRaises with
  | true => rfl
  | false =>
    cases hp : env.playRaises with
    | true => rfl
    | false => rfl

theorem ai_parts_of_empty (r : GenResponse) (h : partsTexts r = []) :
    ai_parts_of r = (msg_unusual, 1) := by
  unfold ai_parts_of
  by_cases hps : r.parts = []
  · rw [if_neg (fun hx => hx hps)]
  · rw [if_pos hps, if_neg (fun hx => hx h)]

theorem ai_parts_of_nonempty (r : GenResponse) (h : partsTexts r ≠ []) :
    ai_parts_of r = (pyStrip (String.intercalate " " (partsTexts r)), 1) := by
  have hps : r.parts ≠ [] := by
    intro hx
    apply h
    unfold partsTexts
    rw [hx]
    rfl
  unfold ai_parts_of
  rw [if_pos hps, if_pos h]

theorem ai_text_of_falsy (r : GenResponse) (hf : textFalsyB r = true) :
    ai_text_of r = ai_parts_of r := by
  obtain ⟨pf, tx, ps⟩ := r
  cases tx with
  | none => rfl
  | some t =>
    have ht : t = "" := by
      by_cases h : t = ""
      · exact h
      · exact absurd hf (by simp [textFalsyB, h])
    subst ht
    show (if ("" : String) ≠ "" then (pyStrip "", 1)
        else ai_parts_of { prompt_feedback := pf, text := some "", parts := ps }) =
      ai_parts_of { prompt_feedback := pf, text := some "", parts := ps }
    rw [if_neg (by simp)]

/-! ### Claim C1 — empty / whitespace-only prompt short-circuit -/

/-- C1 counterexample: the prompt `" "` consists only of whitespace and is
non-empty, yet `get_ai_response` does not return the canned no-input reply:
with an initialized model it sends the prompt to the service (one
`generate_content` call) and returns the service's text. The Python guard
`if not prompt:` only fires on the exactly-empty string. -/
theorem c1_counterexample :
    (∀ c ∈ (" " : String).data, pyIsSpace c = true) ∧ (" " : String) ≠ "" ∧
    get_ai_response (some (GenOutcome.ok c1resp)) " " = ("hello there", 1) ∧
    (get_ai_response (some (GenOutcome.ok c1resp)) " ").2 ≠ 0 ∧
    (get_ai_response (some (GenOutcome.ok c1resp)) " ").1 ≠ msg_empty_prompt := by
  decide

/-- C1 (amended): with an initialized model handle, exactly the empty prompt
short-circuits to the canned no-input reply with zero service calls; a
whitespace-only but non-empty prompt (here `" "`) does not short-circuit and
makes one `generate_content` call. -/
theorem c1_empty_prompt_short_circuit :
    (∀ outcome : GenOutcome, get_ai_response (some outcome) "" = (msg_empty_prompt, 0)) ∧
    (∀ outcome : GenOutcome, (get_ai_response (some outcome) " ").2 = 1) := by
  constructor
  · intro o
    rfl
  · intro o
    cases o with
    | raised m => rfl
    | ok r =>
      show (if (" " : String) = "" then (msg_empty_prompt, 0) else _).2 = 1
      rw [if_neg (by decide)]
      obtain ⟨pf, tx, ps⟩ := r
      cases pf with
      | none => exact ai_text_of_snd _
      | some fb =>
        obtain ⟨br⟩ := fb
        cases br with
        | none => exact ai_text_of_snd _
        | some reason => rfl

/-! ### Claim C2 — transient-file cleanup in `speak_text` -/

/-- C2 counterexample: in `c2env` the playback subsystem releases the temp
file within the claimed retry window (removal attempts 1 and 2 would
succeed), yet after `speak_text` returns the file still exists and only a
warning was logged: the finally block quits the mixer before the removal
loop, so its busy-poll condition is immediately satisfied, `os.remove` is
attempted exactly once, and its `PermissionError` aborts the loop with no
retry. -/
theorem c2_counterexample :
    c2env.removeAt 1 = RemoveOutcome.ok ∧ c2env.removeAt 2 = RemoveOutcome.ok ∧
    fileRemains (speak_text (.pystr "hello") "en" c2env) = true ∧
    cleanupWarned (speak_text (.pystr "hello") "en" c2env) = true ∧
    (speak_text (.pystr "hello") "en" c2env).propagated = none := by
  decide

/-- C2 (amended): the cleanup runs in a `finally`-equivalent block on every
path, so no failure propagates; because the mixer is stopped and quit before
the removal loop, the loop's hold-check is false at once and `os.remove` is
attempted exactly once (the outcome depends only on attempt 0). If that
single attempt succeeds the transient file does not exist after `speak_text`
returns (even when synthesis or playback raised); if it raises
`PermissionError` (file still locked) a warning is logged and the file is
left in place without crashing — the busy-poll retries never re-attempt the
removal. -/
theorem c2_cleanup_single_attempt :
    (∀ (s lang : String) (env : SpeakEnv), env.removeAt 0 = RemoveOutcome.ok →
        fileRemains (speak_text (.pystr s) lang env) = false ∧
        (speak_text (.pystr s) lang env).propagated = none) ∧
    (∀ (s lang : String) (env : SpeakEnv), s ≠ "" → env.synth = SynthOutcome.ok →
        env.removeAt 0 = RemoveOutcome.permissionError →
        fileRemains (speak_text (.pystr s) lang env) = true ∧
        cleanupWarned (speak_text (.pystr s) lang env) = true ∧
        (speak_text (.pystr s) lang env).propagated = none) ∧
    (∀ (f g : Nat → RemoveOutcome) (held : Nat → Bool), f 0 = g 0 →
        held 0 = false → removeLoop held f 3 0 = removeLoop held g 3 0) := by
  refine ⟨?_, ?_, ?_⟩
  · intro s lang env h0
    refine ⟨?_, speak_text_propagated _ _ _⟩
    by_cases hs : s = ""
    · subst hs
      rfl
    · show fileRemains (if s = "" then noopResult else _) = false
      rw [if_neg hs]
      cases h : speak_try_body env with
      | ok st => exact speak_finish_fileRemains_ok st none env h0
      | error p => exact speak_finish_fileRemains_ok p.2 (some p.1) env h0
  · intro s lang env hs hsy h0
    have hcreated := speak_try_body_created env hsy
    refine ⟨?_, ?_, speak_text_propagated _ _ _⟩
    · show fileRemains (if s = "" then noopResult else _) = true
      rw [if_neg hs]
      cases h : speak_try_body env with
      | ok st =>
        rw [h] at hcreated
        exact (speak_finish_fileRemains_perm st none env hcreated h0).1
      | error p =>
        rw [h] at hcreated
        exact (speak_finish_fileRemains_perm p.2 (some p.1) env hcreated h0).1
    · show cleanupWarned (if s = "" then noopResult else _) = true
      rw [if_neg hs]
      cases h : speak_try_body env with
      | ok st =>
        rw [h] at hcreated
        exact (speak_finish_fileRemains_perm st none env hcreated h0).2
      | error p =>
        rw [h] at hcreated
        exact (speak_finish_fileRemains_perm p.2 (some p.1) env hcreated h0).2
  · intro f g held hfg hheld
    rw [removeLoop_not_held f held hheld, removeLoop_not_held g held hheld, hfg]

/-- Witness for `c2_cleanup_single_attempt`: with an environment whose first
removal attempt succeeds, the file is gone and nothing propagates. -/
theorem c2_cleanup_single_attempt_witness :
    fileRemains (speak_text (.pystr "hi") "en"
        { synth := .ok, mixerInitRaises := false, playRaises := false,
          busyPolls := 0, removeAt := fun _ => .ok }) = false ∧
    (speak_text (.pystr "hi") "en"
        { synth := .ok, mixerInitRaises := false, playRaises := false,
          busyPolls := 0, removeAt := fun _ => .ok }).propagated = none :=
  c2_cleanup_single_attempt.1 "hi" "en"
    { synth := .ok, mixerInitRaises := false, playRaises := false,
      busyPolls := 0, removeAt := fun _ => .ok } rfl

/-! ### Claim C3 — uninitialized model handle -/

/-- C3: when the model handle is `None`, `get_ai_response` returns the
unavailable message for every prompt with zero `generate_content` calls, and
the session loop's turn dispatch speaks the fixed brain-unavailable message
(one speech call, no service call) for every successful transcription. -/
theorem c3_model_none_unavailable :
    (∀ prompt : String, get_ai_response none prompt = (msg_model_unavailable, 0)) ∧
    (∀ t : String, t ≠ "" →
        handle_speech_result none
            { success := true, error := none, transcription := some t } =
          { spoken := [msg_brain_unavailable], printedInfo := none, aiCalls := 0 }) := by
  refine ⟨fun _ => rfl, ?_⟩
  intro t ht
  show (if (true && optTruthy (some t)) = true then _ else _) = _
  have hot : optTruthy (some t) = true := by
    show (if t = "" then false else true) = true
    rw [if_neg ht]
  rw [hot]
  rfl

/-- Witness for `c3_model_none_unavailable` at the transcript `"hello"`. -/
theorem c3_model_none_unavailable_witness :
    handle_speech_result none
        { success := true, error := none, transcription := some "hello" } =
      { spoken := [msg_brain_unavailable], printedInfo := none, aiCalls := 0 } :=
  c3_model_none_unavailable.2 "hello" (by decide)

theorem handle_other_error (model : Option GenOutcome) (e : String) (h0 : e ≠ "")
    (h1 : e ≠ "Unable to recognize speech.") (h2 : e ≠ "No speech detected") :
    handle_speech_result model { success := false, error := some e, transcription := none } =
      { spoken := [], printedInfo := some e, aiCalls := 0 } := by
  show (if (false && optTruthy none) = true then _ else _) = _
  rw [if_neg (by decide : ¬((false && optTruthy none) = true))]
  show (if e = "" then _ else _) = _
  rw [if_neg h0, if_neg h1, if_neg h2]

/-! ### Claim C4 — retry prompt only for the unrecognized-speech failure -/

/-- C4 counterexample: after the recognizer raises unknown-value, the loop
does speak exactly one retry prompt, but its text is the code's fixed string
`msg_retry` ("I didn't quite catch that. Could you please repeat?"), which
differs from the wording the claim quotes. -/
theorem c4_counterexample :
    (handle_speech_result none
        (recognize_speech_from_mic true true .ok .captured .unknownValue)).spoken =
      [msg_retry] ∧
    msg_retry ≠ claimedRetryText := by
  decide

/-- C4 (amended): when transcription fails, the loop speaks exactly one
fixed retry prompt — the code's string "I didn't quite catch that. Could you
please repeat?" — if and only if the failure is the unrecognized-speech kind
(recognizer raised unknown-value); the request-error and generic-exception
failure kinds are printed only, with no speech call, and in every case the
loop keeps running (returns to the idle prompt). -/
theorem c4_retry_prompt_routing :
    (∀ model : Option GenOutcome,
        handle_speech_result model
            (recognize_speech_from_mic true true .ok .captured .unknownValue) =
          { spoken := [msg_retry], printedInfo := some "Unable to recognize speech.",
            aiCalls := 0 }) ∧
    (∀ model : Option GenOutcome,
        handle_speech_result model
            (recognize_speech_from_mic true true .ok .captured (.requestError "boom")) =
          { spoken := [],
            printedInfo := some "API unavailable. Check your internet connection or API quota.",
            aiCalls := 0 }) ∧
    (∀ (model : Option GenOutcome) (m : String),
        handle_speech_result model
            (recognize_speech_from_mic true true .ok .captured (.raised m)) =
          { spoken := [], printedInfo := some ("Speech recognition failed: " ++ m),
            aiCalls := 0 }) ∧
    (∀ (st : LoopState) (model : Option GenOutcome) (selIn : List String),
        main_step st
            { line := "", selInputs := selIn,
              speech := recognize_speech_from_mic true true .ok .captured .unknownValue,
              model := model } =
          some ({ lang := st.lang, running := st.running },
            { spoken := [msg_retry], printedInfo := some "Unable to recognize speech.",
              aiCalls := 0 })) := by
  refine ⟨fun model => rfl, fun model => rfl, ?_, fun st model selIn => rfl⟩
  intro model m
  exact handle_other_error model ("Speech recognition failed: " ++ m)
    (sr_fail_ne_empty m) (sr_fail_ne_unable m) (sr_fail_ne_nospeech m)

/-! ### Claim C5 — reply extraction order of the response adapter -/

/-- C5 counterexample: a non-blocked response whose primary text field is
`"  hi  "` (present and non-empty). The adapter returns `"hi"`, the stripped
text, not the text field itself as the claim states. -/
theorem c5_counterexample :
    c5resp.prompt_feedback = none ∧ c5resp.text = some "  hi  " ∧
    ("  hi  " : String) ≠ "" ∧
    get_ai_response (some (GenOutcome.ok c5resp)) "x" = ("hi", 1) ∧
    ("hi" : String) ≠ "  hi  " := by
  decide

/-- C5 (amended): on a successful service response the safety-filter signal
is inspected first — a truthy block reason yields the blocked message no
matter what the text fields hold; if not blocked, a present non-empty
primary text is returned stripped of leading/trailing whitespace; otherwise
the text fragments of the parts are joined by single spaces and returned
stripped when any exist; and when neither source yields any fragment the
unusual-response message is returned. Exactly one service call happens in
every case. -/
theorem c5_reply_extraction :
    (∀ (r : GenResponse) (p reason : String), p ≠ "" →
        r.prompt_feedback = some { block_reason := some reason } →
        get_ai_response (some (.ok r)) p = (msg_blocked reason, 1)) ∧
    (∀ (r : GenResponse) (p t : String), p ≠ "" → notBlockedB r = true →
        r.text = some t → t ≠ "" →
        get_ai_response (some (.ok r)) p = (pyStrip t, 1)) ∧
    (∀ (r : GenResponse) (p : String), p ≠ "" → notBlockedB r = true →
        textFalsyB r = true → partsTexts r ≠ [] →
        get_ai_response (some (.ok r)) p =
          (pyStrip (String.intercalate " " (partsTexts r)), 1)) ∧
    (∀ (r : GenResponse) (p : String), p ≠ "" → notBlockedB r = true →
        textFalsyB r = true → partsTexts r = [] →
        get_ai_response (some (.ok r)) p = (msg_unusual, 1)) := by
  refine ⟨?_, ?_, ?_, ?_⟩
  · intro r p reason hp hpf
    obtain ⟨pf, tx, ps⟩ := r
    have hpf2 : pf = some { block_reason := some reason } := hpf
    subst hpf2
    show (if p = "" then (msg_empty_prompt, 0) else _) = _
    rw [if_neg hp]
  · intro r p t hp hb ht hne
    rw [get_ai_ok_not_blocked hp hb]
    obtain ⟨pf, tx, ps⟩ := r
    have ht2 : tx = some t := ht
    subst ht2
    show (if t ≠ "" then (pyStrip t, 1) else _) = _
    rw [if_pos hne]
  · intro r p hp hb hf hpt
    rw [get_ai_ok_not_blocked hp hb, ai_text_of_falsy r hf]
    exact ai_parts_of_nonempty r hpt
  · intro r p hp hb hf hpt
    rw [get_ai_ok_not_blocked hp hb, ai_text_of_falsy r hf]
    exact ai_parts_of_empty r hpt

/-- Witness for `c5_reply_extraction`: a blocked response returns the
blocked message before any text is read. -/
theorem c5_reply_extraction_witness :
    get_ai_response (some (GenOutcome.ok
        { prompt_feedback := some { block_reason := some "SAFETY" },
          text := some "x", parts := [] })) "p" = (msg_blocked "SAFETY", 1) :=
  c5_reply_extraction.1
    { prompt_feedback := some { block_reason := some "SAFETY" },
      text := some "x", parts := [] } "p" "SAFETY" (by decide) rfl

/-! ### Claim C6 — `speak_text` is best-effort and a no-op on empty/non-string -/

/-- C6: for every text and synthesis locale, `speak_text` lets no exception
escape (its two handlers catch every exception the try block can raise, and
the cleanup code catches its own), and it returns immediately with no
synthesis, playback, file creation or cleanup when the text is the empty
string or not a string. -/
theorem c6_speak_best_effort :
    (∀ (v : PyVal) (lang : String) (env : SpeakEnv),
        (speak_text v lang env).propagated = none) ∧
    (∀ (lang : String) (env : SpeakEnv), speak_text (.pystr "") lang env = noopResult) ∧
    (∀ (lang : String) (env : SpeakEnv), speak_text .nonStr lang env = noopResult) ∧
    noopResult.fileCreated = false ∧ noopResult.played = false ∧
    noopResult.cleanup = none := by
  exact ⟨speak_text_propagated, fun lang env => rfl, fun lang env => rfl, rfl, rfl, rfl⟩

/-! ### Claim C7 — idle prompt dispatch -/

/-- C7: the idle input line is stripped of surrounding whitespace and
lowercased; `"q"` then terminates, `"c"` re-enters language selection, and
anything else — the empty line included — proceeds to listening, so `"Q"`
and `"q"`, and `"C"` and `"c"`, behave identically and surrounding
whitespace is ignored. -/
theorem c7_idle_commands :
    (∀ line : String, pyLower (pyStrip line) = "q" → idle_action line = .quit) ∧
    (∀ line : String, pyLower (pyStrip line) = "c" → idle_action line = .changeLang) ∧
    (∀ line : String, pyLower (pyStrip line) ≠ "q" → pyLower (pyStrip line) ≠ "c" →
        idle_action line = .listen) ∧
    idle_action "" = .listen ∧ idle_action "hello" = .listen ∧
    idle_action "q" = .quit ∧ idle_action "Q" = .quit ∧ idle_action "  q  " = .quit ∧
    idle_action "c" = .changeLang ∧ idle_action "C" = .changeLang ∧
    idle_action " C " = .changeLang ∧
    idle_action "Q" = idle_action "q" ∧ idle_action "C" = idle_action "c" := by
  refine ⟨?_, ?_, ?_, by decide, by decide, by decide, by decide, by decide,
    by decide, by decide, by decide, by decide, by decide⟩
  · intro line h
    show (if pyLower (pyStrip line) = "q" then IdleAction.quit
        else if pyLower (pyStrip line) = "c" then IdleAction.changeLang
        else IdleAction.listen) = IdleAction.quit
    rw [if_pos h]
  · intro line h
    show (if pyLower (pyStrip line) = "q" then IdleAction.quit
        else if pyLower (pyStrip line) = "c" then IdleAction.changeLang
        else IdleAction.listen) = IdleAction.changeLang
    rw [if_neg (h ▸ (by decide : ("c" : String) ≠ "q")), if_pos h]
  · intro line h1 h2
    show (if pyLower (pyStrip line) = "q" then IdleAction.quit
        else if pyLower (pyStrip line) = "c" then IdleAction.changeLang
        else IdleAction.listen) = IdleAction.listen
    rw [if_neg h1, if_neg h2]

/-- Witness for `c7_idle_commands`: the line `" Q "` strips and lowercases
to `"q"` and quits. -/
theorem c7_idle_commands_witness : idle_action " Q " = IdleAction.quit :=
  c7_idle_commands.1 " Q " (by decide)

/-! ### Claim C8 — no-speech timeout prompt -/

/-- C8 counterexample: on the listen timeout the loop does speak one fixed
prompt, but its text is the code's string `msg_no_hear` ("I didn't hear
anything. Please try speaking."), not the wording the claim quotes. -/
theorem c8_counterexample :
    (handle_speech_result none
        (recognize_speech_from_mic true true .ok .waitTimeout (.ok "x"))).spoken =
      [msg_no_hear] ∧
    msg_no_hear ≠ claimedNoHearText := by
  decide

/-- C8 (amended): when listening times out with no speech, the turn yields
the no-speech outcome (`success=True`, error string "No speech detected",
no transcript) and the loop speaks exactly one fixed prompt — the code's
string "I didn't hear anything. Please try speaking." — prints the info
line, makes no service call, and keeps running (returns to the idle
prompt). -/
theorem c8_no_speech_prompt :
    (∀ rc : RecogOutcome, recognize_speech_from_mic true true .ok .waitTimeout rc =
        { success := true, error := some "No speech detected", transcription := none }) ∧
    (∀ (model : Option GenOutcome) (rc : RecogOutcome),
        handle_speech_result model
            (recognize_speech_from_mic true true .ok .waitTimeout rc) =
          { spoken := [msg_no_hear], printedInfo := some "No speech detected",
            aiCalls := 0 }) ∧
    (∀ (st : LoopState) (model : Option GenOutcome) (selIn : List String)
        (rc : RecogOutcome),
        main_step st
            { line := "", selInputs := selIn,
              speech := recognize_speech_from_mic true true .ok .waitTimeout rc,
              model := model } =
          some ({ lang := st.lang, running := st.running },
            { spoken := [msg_no_hear], printedInfo := some "No speech detected",
              aiCalls := 0 })) := by
  exact ⟨fun rc => rfl, fun model rc => rfl, fun st model selIn rc => rfl⟩

/-! ### Claim C9 — the current language is always a registry profile -/

/-- C9: `select_language` only ever returns a registry profile and returns
none (models re-prompting forever) on an input stream with no valid key; one
loop iteration preserves membership of the current language in the registry;
and every iteration whose idle action is not the change-language command
leaves the current language untouched. -/
theorem c9_language_invariant :
    (∀ (inputs : List String) (l : LangInfo),
        select_language inputs = some l → l ∈ langValues) ∧
    (∀ inputs : List String, (∀ i ∈ inputs, lookupLang i = none) →
        select_language inputs = none) ∧
    (∀ (st : LoopState) (env : StepEnv) (st2 : LoopState) (out : TurnOutput),
        st.lang ∈ langValues → main_step st env = some (st2, out) →
        st2.lang ∈ langValues) ∧
    (∀ (st : LoopState) (env : StepEnv) (st2 : LoopState) (out : TurnOutput),
        idle_action env.line ≠ .changeLang → main_step st env = some (st2, out) →
        st2.lang = st.lang) := by
  refine ⟨fun inputs l h => select_language_mem h,
    fun inputs h => select_language_none h, ?_, ?_⟩
  · intro st env st2 out hmem hstep
    unfold main_step at hstep
    cases hact : idle_action env.line with
    | quit =>
      rw [hact] at hstep
      obtain ⟨h1, -⟩ := Prod.mk.inj (Option.some.inj hstep)
      rw [← h1]
      exact hmem
    | changeLang =>
      rw [hact] at hstep
      obtain ⟨l, hl, hfl⟩ := Option.map_eq_some'.mp hstep
      obtain ⟨h1, -⟩ := Prod.mk.inj hfl
      rw [← h1]
      exact select_language_mem hl
    | listen =>
      rw [hact] at hstep
      obtain ⟨h1, -⟩ := Prod.mk.inj (Option.some.inj hstep)
      rw [← h1]
      exact hmem
  · intro st env st2 out hact hstep
    unfold main_step at hstep
    cases h : idle_action env.line with
    | quit =>
      rw [h] at hstep
      obtain ⟨h1, -⟩ := Prod.mk.inj (Option.some.inj hstep)
      rw [← h1]
    | changeLang => exact absurd h hact
    | listen =>
      rw [h] at hstep
      obtain ⟨h1, -⟩ := Prod.mk.inj (Option.some.inj hstep)
      rw [← h1]

/-- Witness for `c9_language_invariant`: the input stream with an invalid
key then `"1"` selects the English profile, which is in the registry. -/
theorem c9_language_invariant_witness :
    ({ name := "English (US)", code := "en-US", gtts_lang := "en" } : LangInfo) ∈
      langValues :=
  c9_language_invariant.1 ["x", "1"]
    { name := "English (US)", code := "en-US", gtts_lang := "en" } (by decide)

/-! ### Claim C10 — exception escape at the device open; success flag does
not imply a transcript -/

/-- C10 counterexample: when entering `with microphone as source:` raises
(device open failure), the exception escapes `recognize_speech_from_mic` —
the call's outcome is the propagated exception, not a returned dict — so
the function does not return every outcome as a dict. -/
theorem c10_counterexample :
    recognize_speech_from_mic_full true true
        (MicOpenOutcome.raised "PyAudio could not open the device") .ok .captured
        (.ok "hi") =
      Except.error "PyAudio could not open the device" ∧
    (recognize_speech_from_mic_full true true
        (MicOpenOutcome.raised "PyAudio could not open the device") .ok .captured
        (.ok "hi")).toOption = none :=
  ⟨rfl, rfl⟩

/-- C10 (amended): an exception can escape `recognize_speech_from_mic` only
from the unguarded device open of `with microphone as source:`; the
`isinstance` guards return their dicts before the open, and once the device
has opened every outcome is returned as the success/error/transcription
dict. `success=True` does not imply a transcript exists: the listen-timeout
and unrecognized-speech outcomes both return `success=True`,
`transcription=None` and a non-`None` error string; conversely a transcript
is present only on a fully successful recognition (`success=True`,
`error=None`), so callers must check the transcription field. -/
theorem c10_success_without_transcript :
    (∀ (m : String) (adj : AdjustOutcome) (lst : ListenOutcome) (rc : RecogOutcome),
        recognize_speech_from_mic_full true true (.raised m) adj lst rc =
          Except.error m) ∧
    (∀ (mo : MicOpenOutcome) (adj : AdjustOutcome) (lst : ListenOutcome)
        (rc : RecogOutcome),
        recognize_speech_from_mic_full false true mo adj lst rc =
          Except.ok
            { success := false,
              error := some "Recognizer not properly initialized.",
              transcription := none } ∧
        recognize_speech_from_mic_full true false mo adj lst rc =
          Except.ok
            { success := false,
              error := some "Microphone not properly initialized.",
              transcription := none }) ∧
    (∀ (rOk mOk : Bool) (adj : AdjustOutcome) (lst : ListenOutcome)
        (rc : RecogOutcome),
        recognize_speech_from_mic_full rOk mOk .ok adj lst rc =
          Except.ok (recognize_speech_from_mic rOk mOk adj lst rc)) ∧
    (∀ rc : RecogOutcome,
        (recognize_speech_from_mic true true .ok .waitTimeout rc).success = true ∧
        (recognize_speech_from_mic true true .ok .waitTimeout rc).transcription = none ∧
        (recognize_speech_from_mic true true .ok .waitTimeout rc).error =
          some "No speech detected") ∧
    ((recognize_speech_from_mic true true .ok .captured .unknownValue).success = true ∧
      (recognize_speech_from_mic true true .ok .captured .unknownValue).transcription =
        none ∧
      (recognize_speech_from_mic true true .ok .captured .unknownValue).error =
        some "Unable to recognize speech.") ∧
    (∀ (rOk mOk : Bool) (adj : AdjustOutcome) (lst : ListenOutcome) (rc : RecogOutcome),
        (recognize_speech_from_mic rOk mOk adj lst rc).transcription.isSome = true →
        (recognize_speech_from_mic rOk mOk adj lst rc).success = true ∧
        (recognize_speech_from_mic rOk mOk adj lst rc).error = none) := by
  refine ⟨fun m adj lst rc => rfl, fun mo adj lst rc => ⟨rfl, rfl⟩, ?_,
    fun rc => ⟨rfl, rfl, rfl⟩, ⟨rfl, rfl, rfl⟩, ?_⟩
  · intro rOk mOk adj lst rc
    cases rOk <;> cases mOk <;> rfl
  · intro rOk mOk adj lst rc h
    cases rOk <;> cases mOk <;> cases adj <;> cases lst <;> cases rc <;>
      simp_all [recognize_speech_from_mic]

/-- Witness for `c10_success_without_transcript`: a fully successful
recognition carries a transcript, the true flag and no error. -/
theorem c10_success_without_transcript_witness :
    (recognize_speech_from_mic true true .ok .captured (.ok "hi")).success = true ∧
    (recognize_speech_from_mic true true .ok .captured (.ok "hi")).error = none :=
  c10_success_without_transcript.2.2.2.2.2 true true .ok .captured (.ok "hi") (by decide)

end SpeakApp
